import Mathlib

/-!
Verification development for the ytdownloader command-line tool.

The development shallowly embeds the reproducible logic of the four source
modules — the quality-selector table of downloader.py, the time parsing,
trim argument validation and duration arithmetic of editor.py, the filename
policy of utils.py, and the argument-validation and operation-chaining
control flow of the download and edit commands of cli.py.

Modelling conventions.
Seconds are modelled as exact rationals; every arithmetic step the claims
exercise (60 * a + b, duration - seconds, end - start) is exact in IEEE
doubles as well, so nothing is lost on the inputs that appear here.
The external engines (yt-dlp and ffmpeg) are opaque collaborators: a command
model returns the ordered list of engine operations it would invoke assuming
each succeeds, together with the exit code and the user-facing error message
when validation stops the invocation.  Python builtins float() and int() are
modelled on plain optionally-signed decimal literals (exponents and digit
underscores are outside every code path the claims touch), and
urllib.parse.urlparse's authority extraction is modelled for ordinary
absolute URLs.  Python truthiness of optional numbers and strings (None,
0.0 and "" being falsy) is modelled explicitly wherever the source relies
on it.  String primitives (split, strip, lower, affix tests) are defined
structurally over character lists so that every concrete instance in this
file evaluates inside the kernel.
-/

namespace YtDl

attribute [local semireducible] Rat.sub Rat.add Rat.mul Rat.inv

deriving instance DecidableEq for Except

/-- Whether the first list is an initial segment of the second. -/
def leadsWith : List Char → List Char → Bool
  | [], _ => true
  | _ :: _, [] => false
  | a :: as, b :: bs => a == b && leadsWith as bs

/-- Fuelled worker for pySplit; the fuel is an upper bound on the number of
characters still to be scanned, making the recursion structural. -/
def splitFuel (sep : List Char) : Nat → List Char → List Char → List (List Char)
  | 0, rest, acc => [acc.reverse ++ rest]
  | _ + 1, [], acc => [acc.reverse]
  | n + 1, c :: cs, acc =>
    if leadsWith sep (c :: cs) then
      acc.reverse :: splitFuel sep n (List.drop (sep.length - 1) cs) []
    else splitFuel sep n cs (c :: acc)

/-- Model of Python str.split(sep) for a nonempty separator: the maximal
(possibly empty) pieces between non-overlapping occurrences of sep. -/
def pySplit (s sep : String) : List String :=
  (splitFuel sep.data (s.data.length + 1) s.data []).map String.mk

/-- Whitespace as stripped by Python str.strip(). -/
def isPySpace (c : Char) : Bool :=
  c == ' ' || c == '\t' || c == '\n' || c == '\r' || c == '\x0b' || c == '\x0c'

/-- Model of Python str.strip(): remove leading and trailing whitespace. -/
def pyStrip (s : String) : String :=
  ⟨((s.data.dropWhile isPySpace).reverse.dropWhile isPySpace).reverse⟩

/-- Model of Python str.lower() on the ASCII range the source compares. -/
def pyLower (s : String) : String :=
  ⟨s.data.map Char.toLower⟩

/-- Model of the Python membership test c in s for a single character. -/
def hasChar (s : String) (c : Char) : Bool :=
  s.data.contains c

/-- Model of Python str.startswith. -/
def sStartsWith (s pre : String) : Bool :=
  leadsWith pre.data s.data

/-- Model of Python str.endswith. -/
def sEndsWith (s post : String) : Bool :=
  leadsWith post.data.reverse s.data.reverse

/-- Model of Python sep.join for a list of pieces. -/
def joinSep (sep : String) : List String → String
  | [] => ""
  | [x] => x
  | x :: y :: xs => x ++ sep ++ joinSep sep (y :: xs)

/-- First piece of a split (splits are never empty, so the default never
shows through). -/
def headStr : List String → String
  | [] => ""
  | x :: _ => x

/-- Last piece of a split. -/
def lastStr : List String → String
  | [] => ""
  | [x] => x
  | _ :: y :: xs => lastStr (y :: xs)

/-- Decimal digits to a natural number, most significant digit first. -/
def digitsToNat (l : List Char) : Nat :=
  l.foldl (fun a c => a * 10 + (c.toNat - 48)) 0

/-- Numeric core of Python float() on an unsigned decimal literal: digits
with an optional fractional part after a dot. -/
def decCore (cs : List Char) : Option Rat :=
  let ip := cs.takeWhile Char.isDigit
  let rest := cs.dropWhile Char.isDigit
  match rest with
  | [] => if ip.isEmpty then none else some ((digitsToNat ip : Int) : Rat)
  | '.' :: frac =>
    if frac.all Char.isDigit && (!ip.isEmpty || !frac.isEmpty) then
      some ((digitsToNat ip : Rat) + (digitsToNat frac : Rat) / ((10 : Rat) ^ frac.length))
    else none
  | _ => none

/-- Model of Python float(str): strip surrounding whitespace, optional sign,
then an unsigned decimal literal; None when the call would raise ValueError. -/
def pyFloat? (s : String) : Option Rat :=
  match (pyStrip s).data with
  | '-' :: rest => (decCore rest).map (fun x => -x)
  | '+' :: rest => decCore rest
  | t => decCore t

/-- Numeric core of Python int() on an unsigned decimal literal. -/
def intCore (cs : List Char) : Option Int :=
  if !cs.isEmpty && cs.all Char.isDigit then some (digitsToNat cs : Int) else none

/-- Model of Python int(str): strip surrounding whitespace, optional sign,
then decimal digits; None when the call would raise ValueError. -/
def pyInt? (s : String) : Option Int :=
  match (pyStrip s).data with
  | '-' :: rest => (intCore rest).map (fun x => -x)
  | '+' :: rest => intCore rest
  | t => intCore t

/-- Error message raised by editor.parse_time for every malformed input. -/
def timeFormatMsg (time_str : String) : String :=
  "Invalid time format: " ++ time_str ++ ". Use seconds, MM:SS, or HH:MM:SS"

/-- Dispatch of editor.parse_time over the colon-separated parts of its
input (editor.py lines 372-383); both the wrong-arity branch and a failing
float() conversion surface the same named-format error. -/
def parse_time_core (time_str : String) : List String → Except String Rat
  | [a] =>
    match pyFloat? a with
    | some x => .ok x
    | none => .error (timeFormatMsg time_str)
  | [a, b] =>
    match pyFloat? a, pyFloat? b with
    | some x, some y => .ok (x * 60 + y)
    | _, _ => .error (timeFormatMsg time_str)
  | [a, b, c] =>
    match pyFloat? a, pyFloat? b, pyFloat? c with
    | some x, some y, some z => .ok (x * 3600 + y * 60 + z)
    | _, _, _ => .error (timeFormatMsg time_str)
  | _ => .error (timeFormatMsg time_str)

/-- Embedding of editor.parse_time (editor.py lines 357-383). -/
def parse_time (time_str : String) : Except String Rat :=
  parse_time_core time_str (pySplit time_str ":")

/-- Error message raised by editor.parse_time_range when its input has no
dash at all. -/
def rangeFormatMsg (time_range : String) : String :=
  "Invalid time range format: " ++ time_range ++
    ". Use \x27start-end\x27, \x27start-\x27, or \x27-end\x27"

/-- Embedding of editor.parse_time_range (editor.py lines 386-410): reject
inputs without a dash, split once at the first dash (Python split with
maxsplit 1), and parse each nonempty side with parse_time. -/
def parse_time_range (time_range : String) :
    Except String (Option Rat × Option Rat) :=
  if hasChar time_range '-' then
    let parts := pySplit time_range "-"
    let start_str := headStr parts
    let end_str := joinSep "-" parts.tail
    match (if start_str.data.isEmpty then .ok none else (parse_time start_str).map some :
        Except String (Option Rat)) with
    | .error e => .error e
    | .ok startTime =>
      match (if end_str.data.isEmpty then .ok none else (parse_time end_str).map some :
          Except String (Option Rat)) with
      | .error e => .error e
      | .ok endTime => .ok (startTime, endTime)
  else .error (rangeFormatMsg time_range)

/-- Quality table of YouTubeDownloader._parse_quality (downloader.py
lines 40-53), copied selector for selector. -/
def quality_map : List (String × String) :=
  [("best", "bv*+ba/b"),
   ("worst", "wv*+wa/w"),
   ("audio", "ba/best"),
   ("144p", "bv*[height<=144]+ba/b[height<=144]/wv*[height<=144]+wa/w[height<=144]"),
   ("240p", "bv*[height<=240]+ba/b[height<=240]/wv*[height<=240]+wa/w[height<=240]"),
   ("360p", "bv*[height<=360]+ba/b[height<=360]/wv*[height<=360]+wa/w[height<=360]"),
   ("480p", "bv*[height<=480]+ba/b[height<=480]/wv*[height<=480]+wa/w[height<=480]"),
   ("720p", "bv*[height<=720]+ba/b[height<=720]/wv*[height<=720]+wa/w[height<=720]"),
   ("1080p", "bv*[height<=1080]+ba/b[height<=1080]/wv*[height<=1080]+wa/w[height<=1080]")]

/-- Embedding of YouTubeDownloader._parse_quality: table lookup with the
unknown token passed through unchanged. -/
def parse_quality (quality : String) : String :=
  (quality_map.lookup quality).getD quality

/-- Fallback tiers of a yt-dlp selector string are separated by slashes;
this is the last, least preferred tier. -/
def finalTier (selector : String) : String :=
  lastStr (pySplit selector "/")

/-- Whether a selector fragment carries a height constraint. -/
def mentionsHeight (tier : String) : Bool :=
  decide (2 ≤ (pySplit tier "height").length)

/-- Index of the last occurrence of a character, if any. -/
def lastIdxOf (c : Char) (cs : List Char) : Option Nat :=
  match cs.reverse.findIdx? (· == c) with
  | some j => some (cs.length - 1 - j)
  | none => none

/-- Models pathlib.PurePath stem/suffix splitting of a file name: the suffix
starts at the last dot when that dot is neither the first nor the last
character of the name; otherwise the suffix is empty. -/
def nameSplitExt (name : String) : String × String :=
  let cs := name.data
  match lastIdxOf '.' cs with
  | some i =>
    if 0 < i ∧ i < cs.length - 1 then (⟨cs.take i⟩, ⟨cs.drop i⟩) else (name, "")
  | none => (name, "")

/-- Final component of a slash-separated path, as pathlib.PurePath.name. -/
def pathName (p : String) : String :=
  lastStr (pySplit p "/")

/-- Joining a new file name onto the parent directory of the input path, as
input_path.parent / new_filename does in utils.generate_output_filename. -/
def dirJoin (input_file new_filename : String) : String :=
  let dirParts := (pySplit input_file "/").dropLast
  if dirParts.isEmpty then new_filename
  else if dirParts = [""] then "/" ++ new_filename
  else joinSep "/" dirParts ++ "/" ++ new_filename

/-- Embedding of utils.generate_output_filename (utils.py lines 104-141):
a pure function of its arguments producing directory/stem-suffix-extension,
directory and extension defaulting to the input's own. -/
def generate_output_filename (input_file suffix : String)
    (extension output_dir : Option String) : String :=
  let name := pathName input_file
  let stemExt := nameSplitExt name
  let ext0 := match extension with
    | some e => if e.data.isEmpty then stemExt.2 else e
    | none => stemExt.2
  let ext := if sStartsWith ext0 "." then ext0 else "." ++ ext0
  let new_filename := stemExt.1 ++ suffix ++ ext
  match output_dir with
  | some d =>
    if d.data.isEmpty then dirJoin input_file new_filename
    else d ++ "/" ++ new_filename
  | none => dirJoin input_file new_filename

/-- Models os.path.splitext's root component: cut at the last dot of the
final path component unless every character between the component start and
that dot is itself a dot. -/
def splitextStem (p : String) : String :=
  let cs := p.data
  match lastIdxOf '.' cs with
  | none => p
  | some d =>
    let f := match lastIdxOf '/' cs with
      | some s => s + 1
      | none => 0
    if f < d ∧ ((cs.drop f).take (d - f)).any (fun c => c != '.') then ⟨cs.take d⟩
    else p

/-- Arguments the trim operation hands to the engine's time-window filter. -/
structure TrimCall where
  start : Option Rat
  endTime : Option Rat
  duration : Option Rat
  deriving DecidableEq

/-- Embedding of VideoEditor.trim_video's argument validation (editor.py
lines 104-158): either the start/end/duration filter arguments passed to the
engine, or the validation error raised before any engine work; the transcode
itself and the input-existence check are external effects. -/
def trim_video (start endTime duration : Option Rat) : Except String TrimCall :=
  if start.isNone ∧ endTime.isNone ∧ duration.isNone then
    .error "At least one of start, end, or duration must be specified"
  else if endTime.isSome ∧ duration.isSome then
    .error "Cannot specify both end time and duration"
  else .ok ⟨start, endTime, duration⟩

/-- Embedding of VideoEditor.remove_start (editor.py lines 160-172). -/
def remove_start (seconds : Rat) : Except String TrimCall :=
  trim_video (some seconds) none none

/-- Error message of VideoEditor.remove_end; the numbers are rendered
abstractly (Python would print them as floats). -/
def cannotRemoveMsg (seconds duration : Rat) : String :=
  "Cannot remove " ++ toString seconds ++ "s from a " ++ toString duration ++ "s video"

/-- Embedding of VideoEditor.remove_end (editor.py lines 174-194): the
probed duration of the input arrives as the first parameter; the operation
either rejects non-positive end times before any transcode or delegates to
trim_video with only the end argument set. -/
def remove_end (duration seconds : Rat) : Except String TrimCall :=
  let end_time := duration - seconds
  if end_time ≤ 0 then .error (cannotRemoveMsg seconds duration)
  else trim_video none (some end_time) none

/-- Python truthiness of an optional float (None and 0.0 are falsy). -/
def pyTruthyFloatOpt (o : Option Rat) : Bool :=
  match o with
  | some x => if x = 0 then false else true
  | none => false

/-- Python truthiness of an optional string (None and "" are falsy). -/
def pyTruthyStrOpt (o : Option String) : Bool :=
  match o with
  | some s => !s.data.isEmpty
  | none => false

/-- Value of the Python idiom taking an optional string when truthy and a
default otherwise. -/
def pyStrOptOrElse (o : Option String) (dflt : String) : String :=
  match o with
  | some s => if s.data.isEmpty then dflt else s
  | none => dflt

/-- Count of trim flags that were supplied, as computed by the validation in
both the download and the edit commands (cli.py lines 117-118 and 248-249):
a value counts as supplied when it is not None. -/
def trimFlagCount (trim_start trim_end : Option Rat) (trim : Option String) : Nat :=
  (if trim_start.isSome then 1 else 0) + (if trim_end.isSome then 1 else 0) +
    (if trim.isSome then 1 else 0)

/-- Trim dispatch shared verbatim by the download and edit commands
(cli.py lines 160-177 and 266-290): remove_start when trim-start was given,
else remove_end (probing the duration) when trim-end was given, else parse
the range, converting a two-sided range into start plus duration. -/
def trimCall (trim_start trim_end : Option Rat) (trim : Option String)
    (probedDuration : Rat) : Except String TrimCall :=
  match trim_start with
  | some s => remove_start s
  | none =>
    match trim_end with
    | some s => remove_end probedDuration s
    | none =>
      match trim with
      | some t =>
        match parse_time_range t with
        | .error e => .error e
        | .ok (startTime, endTime) =>
          match startTime, endTime with
          | some s, some e => trim_video (some s) none (some (e - s))
          | _, _ => trim_video startTime endTime none
      | none => .error "no trim requested"

/-- Validation error printed by the edit command for a malformed
WIDTHxHEIGHT resize value. -/
def resizeFormatMsg (r : String) : String :=
  "Invalid resize format: " ++ r

/-- Validation error printed by the edit command for a resize value that is
neither a p-suffixed token nor a WIDTHxHEIGHT pair. -/
def resizeFormatMsgHint (r : String) : String :=
  "Invalid resize format: " ++ r ++ ". Use \x27720p\x27 or \x271280x720\x27"

/-- Model of the Python expression map(int, resize.split(\x27x\x27)) unpacked
into exactly two values: None exactly when the unpacking or either int()
call would raise ValueError. -/
def parseWxH (r : String) : Option (Int × Int) :=
  match (pySplit r "x").mapM pyInt? with
  | some [w, h] => some (w, h)
  | _ => none

/-- How the edit command routes a resize value (cli.py lines 321-334). -/
inductive ResizeRoute
  | scale (s : String)
  | dims (w h : Int)
  | invalid (msg : String)
  deriving DecidableEq

/-- Resize-spec routing of the edit command (cli.py lines 321-334): a value
ending in p goes down the named-scale path, else a value containing x is
parsed as two integers, else the value is rejected with a hint. -/
def resolveResize (r : String) : ResizeRoute :=
  if sEndsWith r "p" then .scale r
  else if hasChar r 'x' then
    match parseWxH r with
    | some (w, h) => .dims w h
    | none => .invalid (resizeFormatMsg r)
  else .invalid (resizeFormatMsgHint r)

/-- Scale-name table of VideoEditor.resize_video (editor.py lines 318-326):
unknown names, including the p-suffixed tokens the edit command forwards,
pass through unchanged. -/
def scale_map : List (String × String) :=
  [("720", "hd720"), ("1080", "hd1080"), ("hd720", "hd720"),
   ("hd1080", "hd1080"), ("480", "854:480"), ("360", "640:360")]

/-- Lookup into scale_map with passthrough, as scale_map.get(scale, scale). -/
def resize_scale_param (scale : String) : String :=
  (scale_map.lookup scale).getD scale

/-- Sub-operations of the edit command, plus the metadata probe of the
info-only path. -/
inductive EOp
  | trim
  | convert
  | resize
  | audio
  | probe
  deriving DecidableEq

/-- One engine invocation of the edit command: the operation, the input
path it reads and the output path it writes. -/
structure EStep where
  op : EOp
  src : String
  dst : String
  deriving DecidableEq

/-- Running state of the edit command body: the Python output variable,
the final_output variable, and the engine invocations so far. -/
structure EditSt where
  output : Option String
  final : String
  steps : List EStep
  deriving DecidableEq

/-- Arguments of the edit command (cli.py lines 193-233). -/
structure EditArgs where
  input_file : String
  output : Option String
  trim_start : Option Rat
  trim_end : Option Rat
  trim : Option String
  extract_audio : Bool
  convert_to : Option String
  resize : Option String
  info : Bool
  deriving DecidableEq

/-- Whether the edit command's trim section runs (cli.py lines 266, 273,
280): the float flags are compared against None, the range flag for
truthiness. -/
def trimRequested (a : EditArgs) : Bool :=
  a.trim_start.isSome || a.trim_end.isSome || pyTruthyStrOpt a.trim

/-- Trim section of the edit command (cli.py lines 266-292): when a trim
flag is present the output path defaults to the _trimmed sibling of the
input, the dispatched trim either fails validation (stopping the command
with exit 1 before the engine runs) or records one engine step reading the
input file, and both the output variable and final_output become that
path. -/
def trimBlock (a : EditArgs) (probedDuration : Rat) (st : EditSt) :
    EditSt × Option String :=
  if trimRequested a then
    let out := pyStrOptOrElse st.output
      (generate_output_filename a.input_file "_trimmed" none none)
    match trimCall a.trim_start a.trim_end a.trim probedDuration with
    | .error m => (st, some m)
    | .ok _ => (⟨some out, out, st.steps ++ [⟨EOp.trim, a.input_file, out⟩]⟩, none)
  else (st, none)

/-- Output-path fixing of the convert section (cli.py lines 296-300): an
unset output defaults to a _converted sibling with the target extension; a
set output keeps its name, with the extension corrected when it does not
already match the target format. -/
def convertOutName (input_file : String) (output : Option String) (ct : String) :
    String :=
  match output with
  | none => generate_output_filename input_file "_converted" (some ct) none
  | some o =>
    if o.data.isEmpty then
      generate_output_filename input_file "_converted" (some ct) none
    else if sEndsWith o ("." ++ ct) then o
    else splitextStem o ++ "." ++ ct

/-- Convert section of the edit command (cli.py lines 295-314): reads the
current final_output, writes the fixed output path, and makes that path the
new output and final_output. -/
def convertBlock (a : EditArgs) (st : EditSt) : EditSt :=
  if pyTruthyStrOpt a.convert_to then
    let out := convertOutName a.input_file st.output (a.convert_to.getD "")
    ⟨some out, out, st.steps ++ [⟨EOp.convert, st.final, out⟩]⟩
  else st

/-- Resize section of the edit command (cli.py lines 317-337): an unset
output defaults to a _resized sibling of the input; the resize value is then
routed, invalid values stop the command with exit 1 before the engine runs,
and a 0x0 pair is rejected by resize_video's own argument check; a
successful route records one engine step reading the current final_output
and writing the output path. -/
def resizeBlock (a : EditArgs) (st : EditSt) : EditSt × Option String :=
  if pyTruthyStrOpt a.resize then
    let out := pyStrOptOrElse st.output
      (generate_output_filename a.input_file "_resized" none none)
    match resolveResize (a.resize.getD "") with
    | .scale _ => (⟨some out, out, st.steps ++ [⟨EOp.resize, st.final, out⟩]⟩, none)
    | .dims w h =>
      if w = 0 ∧ h = 0 then (st, some "Must specify width, height, or scale")
      else (⟨some out, out, st.steps ++ [⟨EOp.resize, st.final, out⟩]⟩, none)
    | .invalid m => (st, some m)
  else (st, none)

/-- Audio-extraction section of the edit command (cli.py lines 340-343):
reads the current final_output and always writes the _audio mp3 sibling of
the original input file, leaving output and final_output untouched. -/
def audioBlock (a : EditArgs) (st : EditSt) : EditSt :=
  if a.extract_audio then
    ⟨st.output, st.final, st.steps ++ [⟨EOp.audio, st.final,
      generate_output_filename a.input_file "_audio" (some "mp3") none⟩]⟩
  else st

/-- Outcome of one edit invocation: engine steps in order, exit code, the
error message when the command stopped, and the last value of
final_output. -/
structure EditRun where
  steps : List EStep
  exitCode : Nat
  errMsg : Option String
  final : String
  deriving DecidableEq

/-- Embedding of the edit command (cli.py lines 233-357): trim-flag mutual
exclusion is validated before anything else touches an engine; the info-only
path just probes; otherwise the four sub-operation sections run in their
fixed textual order, stopping with exit 1 at the first failure.  The probed
duration parameter stands for what remove_end would read off the input
file; engine invocations themselves are assumed to succeed. -/
def editCmd (a : EditArgs) (probedDuration : Rat) : EditRun :=
  if 1 < trimFlagCount a.trim_start a.trim_end a.trim then
    ⟨[], 1, some "Cannot specify multiple trim options", a.input_file⟩
  else if a.info then
    ⟨[⟨EOp.probe, a.input_file, a.input_file⟩], 0, none, a.input_file⟩
  else
    match trimBlock a probedDuration ⟨a.output, a.input_file, []⟩ with
    | (st1, some m) => ⟨st1.steps, 1, some m, st1.final⟩
    | (st1, none) =>
      match resizeBlock a (convertBlock a st1) with
      | (st3, some m) => ⟨st3.steps, 1, some m, st3.final⟩
      | (st3, none) =>
        let st4 := audioBlock a st3
        ⟨st4.steps, 0, none, st4.final⟩

/-- Whether a list of operations is a subsequence of another, preserving
order. -/
def isSubseq : List EOp → List EOp → Bool
  | [], _ => true
  | _ :: _, [] => false
  | a :: as, b :: bs => if a = b then isSubseq as bs else isSubseq (a :: as) bs

/-- Whether consecutive steps chain: the first reads the given path and
every later step reads the path the previous step wrote. -/
def chainedFrom (cur : String) : List EStep → Bool
  | [] => true
  | s :: rest => (cur == s.src) && chainedFrom s.dst rest

/-- Domain allow-list of downloader.validate_youtube_url (downloader.py
lines 213-218). -/
def youtube_domains : List String :=
  ["youtube.com", "www.youtube.com", "youtu.be", "m.youtube.com"]

/-- Modeled after urllib.parse.urlparse's authority extraction for ordinary
absolute URLs: the text after the first double slash up to the next slash,
question mark or hash; empty when the URL has no double slash. -/
def urlNetloc (url : String) : String :=
  match pySplit url "//" with
  | _ :: rest :: _ =>
    headStr (pySplit (headStr (pySplit (headStr (pySplit rest "/")) "?")) "#")
  | _ => ""

/-- Embedding of downloader.validate_youtube_url (downloader.py
lines 203-225): the lower-cased authority must be on the fixed
allow-list. -/
def validate_youtube_url (url : String) : Bool :=
  youtube_domains.contains (pyLower (urlNetloc url))

/-- What the interactive prompt read returns: a line, end-of-file on closed
or non-interactive standard input, or an interrupt. -/
inductive UserIn
  | line (s : String)
  | eof
  | interrupt
  deriving DecidableEq

/-- Embedding of utils.confirm_action (utils.py lines 290-312): lower-case
and strip the response, return the default on an empty response, recognise
the four affirmative words, and return False when reading raised
KeyboardInterrupt or EOFError. -/
def confirm_action (inp : UserIn) (dflt : Bool) : Bool :=
  match inp with
  | .line s =>
    let response := pyStrip (pyLower s)
    if response.data.isEmpty then dflt
    else (["y", "yes", "true", "1"] : List String).contains response
  | .eof => false
  | .interrupt => false

/-- Engine operations the download command can invoke, in the order the
code reaches them. -/
inductive DOp
  | fetchInfo
  | listFmts
  | dlMedia
  | dlAudio
  | trimRun
  | rmOriginal
  deriving DecidableEq

/-- Arguments of the download command (cli.py lines 47-95). -/
structure DlArgs where
  url : String
  quality : String
  filename : Option String
  trim_start : Option Rat
  trim_end : Option Rat
  trim : Option String
  audio_only : Bool
  info_only : Bool
  list_formats : Bool
  deriving DecidableEq

/-- Outcome of one download invocation: engine operations in order, exit
code, error message when it failed, and the trimmed file the trim section
produced, if any. -/
structure DlRun where
  ops : List DOp
  exitCode : Nat
  errMsg : Option String
  trimmedFile : Option String
  deriving DecidableEq

/-- Presence test guarding the download command's post-download trim
section (cli.py line 152): Python any() over the three flags, hence a
truthiness test under which 0.0 and the empty string do not count. -/
def dlTrimGuard (a : DlArgs) : Bool :=
  pyTruthyFloatOpt a.trim_start || pyTruthyFloatOpt a.trim_end ||
    pyTruthyStrOpt a.trim

/-- Embedding of the download command (cli.py lines 95-190), assuming the
engine operations succeed: URL validation, then trim-flag mutual exclusion,
both before any engine call; then the metadata fetch, the info-only and
list-formats short circuits, the media or audio download, and the optional
trim section with its keep-original prompt.  probedDuration stands for the
duration remove_end would probe, downloadedFile for the path the engine
reports, inp for the interactive answer to the prompt. -/
def downloadCmd (a : DlArgs) (probedDuration : Rat) (downloadedFile : String)
    (inp : UserIn) : DlRun :=
  if !(validate_youtube_url a.url) then ⟨[], 1, some "Invalid YouTube URL", none⟩
  else if 1 < trimFlagCount a.trim_start a.trim_end a.trim then
    ⟨[], 1, some "Cannot specify multiple trim options", none⟩
  else if a.info_only then ⟨[DOp.fetchInfo], 0, none, none⟩
  else if a.list_formats then ⟨[DOp.fetchInfo, DOp.listFmts], 0, none, none⟩
  else
    let dl := if a.audio_only then DOp.dlAudio else DOp.dlMedia
    if dlTrimGuard a then
      let edited := generate_output_filename downloadedFile "_trimmed" none none
      match trimCall a.trim_start a.trim_end a.trim probedDuration with
      | .error m => ⟨[DOp.fetchInfo, dl], 1, some m, none⟩
      | .ok _ =>
        if confirm_action inp false then
          ⟨[DOp.fetchInfo, dl, DOp.trimRun], 0, none, some edited⟩
        else
          ⟨[DOp.fetchInfo, dl, DOp.trimRun, DOp.rmOriginal], 0, none, some edited⟩
    else ⟨[DOp.fetchInfo, dl], 0, none, none⟩

/-- Helper: parse_time rejects every split with more than three parts. -/
theorem parse_time_core_long (s : String) (l : List String) (h : 3 < l.length) :
    parse_time_core s l = .error (timeFormatMsg s) := by
  match l with
  | [] => simp at h
  | [a] => simp at h
  | [a, b] => simp at h
  | [a, b, c] => simp at h
  | a :: b :: c :: d :: t => rfl

/-- Helper: parse_time rejects every split one of whose parts float() cannot
convert. -/
theorem parse_time_core_bad (s : String) (l : List String) (p : String)
    (hp : p ∈ l) (hf : pyFloat? p = none) :
    parse_time_core s l = .error (timeFormatMsg s) := by
  match l with
  | [] => cases hp
  | [a] =>
    simp only [List.mem_singleton] at hp
    subst hp
    simp [parse_time_core, hf]
  | [a, b] =>
    simp only [List.mem_cons, List.mem_singleton, List.not_mem_nil, or_false] at hp
    rcases hp with rfl | rfl
    · simp [parse_time_core, hf]
    · cases h1 : pyFloat? a <;> simp [parse_time_core, h1, hf]
  | [a, b, c] =>
    simp only [List.mem_cons, List.mem_singleton, List.not_mem_nil, or_false] at hp
    rcases hp with rfl | rfl | rfl
    · simp [parse_time_core, hf]
    · cases h1 : pyFloat? a <;> simp [parse_time_core, h1, hf]
    · cases h1 : pyFloat? a <;> cases h2 : pyFloat? b <;>
        simp [parse_time_core, h1, h2, hf]
  | a :: b :: c :: d :: t => rfl

/-- C5: parse_time maps SS, MM:SS and HH:MM:SS strings to total seconds —
90, 1:30 and 1:01:01 give 90.0, 90.0 and 3661.0 — and every input with more
than three colon-separated parts (such as 1:2:3:4), or with a part float()
cannot convert, fails with the error naming the offending input and the
accepted formats. -/
theorem parse_time_spec :
    parse_time "90" = .ok 90 ∧
    parse_time "1:30" = .ok 90 ∧
    parse_time "1:01:01" = .ok 3661 ∧
    parse_time "1:2:3:4" = .error (timeFormatMsg "1:2:3:4") ∧
    (∀ s : String, 3 < (pySplit s ":").length →
      parse_time s = .error (timeFormatMsg s)) ∧
    (∀ s p : String, p ∈ pySplit s ":" → pyFloat? p = none →
      parse_time s = .error (timeFormatMsg s)) := by
  refine ⟨by decide, by decide, by decide, by decide, ?_, ?_⟩
  · intro s h
    exact parse_time_core_long s (pySplit s ":") h
  · intro s p hp hf
    exact parse_time_core_bad s (pySplit s ":") p hp hf

/-- Witness for parse_time_spec at concrete malformed inputs. -/
theorem parse_time_spec_witness :
    parse_time "0:0:0:7" = .error (timeFormatMsg "0:0:0:7") ∧
    parse_time "2:xx" = .error (timeFormatMsg "2:xx") :=
  ⟨parse_time_spec.2.2.2.2.1 "0:0:0:7" (by decide),
   parse_time_spec.2.2.2.2.2 "2:xx" "xx" (by decide) (by decide)⟩

/-- C6: parse_time_range splits at the first dash into an optional start
and end — 10-30, 10- and -30 give (10, 30), (10, None) and (None, 30) — and
every input without a dash fails with the explicit range-format error. -/
theorem parse_time_range_spec :
    parse_time_range "10-30" = .ok (some 10, some 30) ∧
    parse_time_range "10-" = .ok (some 10, none) ∧
    parse_time_range "-30" = .ok (none, some 30) ∧
    (∀ s : String, hasChar s '-' = false →
      parse_time_range s = .error (rangeFormatMsg s)) := by
  refine ⟨by decide, by decide, by decide, ?_⟩
  intro s h
  simp [parse_time_range, h]

/-- Witness for parse_time_range_spec at a dash-free input. -/
theorem parse_time_range_spec_witness :
    parse_time_range "1030" = .error (rangeFormatMsg "1030") :=
  parse_time_range_spec.2.2.2 "1030" (by decide)

/-- C4: remove_end computes end = duration - seconds from the probed
duration, rejects every non-positive remainder with the cannot-remove error
before any transcode, and otherwise delegates to trim with exactly that end
time, so removing 5 seconds from a 65-second video is trim(end=60). -/
theorem remove_end_spec :
    (∀ duration seconds : Rat, duration - seconds ≤ 0 →
      remove_end duration seconds = .error (cannotRemoveMsg seconds duration)) ∧
    (∀ duration seconds : Rat, 0 < duration - seconds →
      remove_end duration seconds =
        trim_video none (some (duration - seconds)) none ∧
      remove_end duration seconds = .ok ⟨none, some (duration - seconds), none⟩) ∧
    remove_end 65 5 = trim_video none (some 60) none ∧
    remove_end 65 5 = .ok ⟨none, some 60, none⟩ := by
  refine ⟨?_, ?_, by decide, by decide⟩
  · intro duration seconds h
    simp [remove_end, h]
  · intro duration seconds h
    have h2 : ¬ (duration - seconds ≤ 0) := not_le.mpr h
    exact ⟨by simp [remove_end, h2], by simp [remove_end, trim_video, h2]⟩

/-- Witness for remove_end_spec: both the rejecting and the delegating
branch at concrete durations. -/
theorem remove_end_spec_witness :
    remove_end 60 65 = .error (cannotRemoveMsg 65 60) ∧
    remove_end 65 5 = .ok ⟨none, some 60, none⟩ :=
  ⟨remove_end_spec.1 60 65 (by decide), remove_end_spec.2.2.2⟩

/-- C8: generate_output_filename deterministically produces
directory/stem-suffix-extension, directory and extension defaulting to the
input's own: clip.mp4 with suffix _trimmed gives clip_trimmed.mp4 beside
the input, and additionally passing extension mp3 gives clip_trimmed.mp3. -/
theorem generate_output_filename_spec :
    generate_output_filename "clip.mp4" "_trimmed" none none = "clip_trimmed.mp4" ∧
    generate_output_filename "clip.mp4" "_trimmed" (some "mp3") none = "clip_trimmed.mp3" ∧
    generate_output_filename "videos/clip.mp4" "_trimmed" none none =
      "videos/clip_trimmed.mp4" ∧
    generate_output_filename "videos/take1.mkv" "_audio" (some "mp3") none =
      "videos/take1_audio.mp3" := by
  exact ⟨by decide, by decide, by decide, by decide⟩

/-- C1 counterexample: for the 720p token the least preferred fallback tier
of the selector still carries the height ceiling — it is the worst combined
stream at or under 720 — so the claimed ceiling-free final tier does not
exist. -/
theorem parse_quality_final_tier_keeps_height :
    finalTier (parse_quality "720p") = "w[height<=720]" ∧
    mentionsHeight (finalTier (parse_quality "720p")) = true := by
  exact ⟨by decide, by decide⟩

/-- C1 (amended): every resolution-capped token maps to a four-tier
fallback — best video at or under the cap plus best audio, else best
combined at or under the cap, else worst video at or under the cap plus
worst audio, else worst combined at or under the cap — and every one of the
four tiers carries the height ceiling. -/
theorem parse_quality_capped_tokens_spec :
    parse_quality "144p" =
      "bv*[height<=144]+ba/b[height<=144]/wv*[height<=144]+wa/w[height<=144]" ∧
    parse_quality "240p" =
      "bv*[height<=240]+ba/b[height<=240]/wv*[height<=240]+wa/w[height<=240]" ∧
    parse_quality "360p" =
      "bv*[height<=360]+ba/b[height<=360]/wv*[height<=360]+wa/w[height<=360]" ∧
    parse_quality "480p" =
      "bv*[height<=480]+ba/b[height<=480]/wv*[height<=480]+wa/w[height<=480]" ∧
    parse_quality "720p" =
      "bv*[height<=720]+ba/b[height<=720]/wv*[height<=720]+wa/w[height<=720]" ∧
    parse_quality "1080p" =
      "bv*[height<=1080]+ba/b[height<=1080]/wv*[height<=1080]+wa/w[height<=1080]" ∧
    (["144p", "240p", "360p", "480p", "720p", "1080p"] : List String).all
      (fun q => (pySplit (parse_quality q) "/").length == 4 &&
        (pySplit (parse_quality q) "/").all mentionsHeight) = true := by
  exact ⟨by decide, by decide, by decide, by decide, by decide, by decide, by decide⟩

/-- C7 counterexample: the x-route accepts 1280x-720, parsing it to the
pair (1280, -720) with a non-positive height instead of failing validation,
so the values are not validated to be positive. -/
theorem resize_dims_accepts_nonpositive :
    resolveResize "1280x-720" = .dims 1280 (-720) ∧ ¬ (0 < (-720 : Int)) := by
  exact ⟨by decide, by decide⟩

/-- C7 (amended): a resize value ending in p is routed to the named-scale
path (whose table passes unknown tokens such as 720p through); a value
containing x is parsed by int() into two integers — with no positivity
check — or rejected with the explicit invalid-format message; a value with
neither is rejected with the explicit hint message; every outcome is one of
these three, never an unhandled crash. -/
theorem resize_route_spec :
    (∀ r : String, sEndsWith r "p" = true → resolveResize r = .scale r) ∧
    resolveResize "720p" = .scale "720p" ∧
    resize_scale_param "720p" = "720p" ∧
    resolveResize "1280x720" = .dims 1280 720 ∧
    resolveResize "abcxdef" = .invalid (resizeFormatMsg "abcxdef") ∧
    (∀ r : String, sEndsWith r "p" = false → hasChar r 'x' = true →
      (∃ w h : Int, parseWxH r = some (w, h) ∧ resolveResize r = .dims w h) ∨
      (parseWxH r = none ∧ resolveResize r = .invalid (resizeFormatMsg r))) ∧
    (∀ r : String, sEndsWith r "p" = false → hasChar r 'x' = false →
      resolveResize r = .invalid (resizeFormatMsgHint r)) := by
  refine ⟨?_, by decide, by decide, by decide, by decide, ?_, ?_⟩
  · intro r h
    simp [resolveResize, h]
  · intro r h1 h2
    cases hw : parseWxH r with
    | some wh =>
      obtain ⟨w, h⟩ := wh
      left
      refine ⟨w, h, rfl, ?_⟩
      simp [resolveResize, h1, h2, hw]
    | none =>
      right
      exact ⟨rfl, by simp [resolveResize, h1, h2, hw]⟩
  · intro r h1 h2
    simp [resolveResize, h1, h2]

/-- Witness for resize_route_spec at concrete values of all three routes. -/
theorem resize_route_spec_witness :
    resolveResize "1080p" = .scale "1080p" ∧
    resolveResize "fullhd" = .invalid (resizeFormatMsgHint "fullhd") :=
  ⟨resize_route_spec.1 "1080p" (by decide),
   resize_route_spec.2.2.2.2.2.2 "fullhd" (by decide) (by decide)⟩

/-- C3 counterexample: with an invalid URL and two trim flags supplied the
download command exits 1 with the URL error before the trim check, not with
the multiple-trim error the claim requires for every such combination. -/
theorem download_invalid_url_masks_trim_error :
    1 < trimFlagCount (some 1) (some 1) none ∧
    downloadCmd ⟨"https://vimeo.com/123", "best", none, some 1, some 1, none,
      false, false, false⟩ 0 "f.mp4" UserIn.eof =
      ⟨[], 1, some "Invalid YouTube URL", none⟩ ∧
    ("Invalid YouTube URL" : String) ≠ "Cannot specify multiple trim options" := by
  exact ⟨by decide, by decide, by decide⟩

/-- C3 (amended): supplying more than one trim flag always exits 1 before
any engine call, for both commands; the failure carries the
multiple-trim-options message in the edit command always and in the
download command whenever the URL passes validation (an invalid URL fails
first with the URL error). -/
theorem multiple_trim_flags_rejected :
    (∀ (a : DlArgs) (probedDuration : Rat) (downloadedFile : String) (inp : UserIn),
      validate_youtube_url a.url = true →
      1 < trimFlagCount a.trim_start a.trim_end a.trim →
      downloadCmd a probedDuration downloadedFile inp =
        ⟨[], 1, some "Cannot specify multiple trim options", none⟩) ∧
    (∀ (a : DlArgs) (probedDuration : Rat) (downloadedFile : String) (inp : UserIn),
      1 < trimFlagCount a.trim_start a.trim_end a.trim →
      (downloadCmd a probedDuration downloadedFile inp).ops = [] ∧
      (downloadCmd a probedDuration downloadedFile inp).exitCode = 1) ∧
    (∀ (a : EditArgs) (probedDuration : Rat),
      1 < trimFlagCount a.trim_start a.trim_end a.trim →
      editCmd a probedDuration =
        ⟨[], 1, some "Cannot specify multiple trim options", a.input_file⟩) := by
  refine ⟨?_, ?_, ?_⟩
  · intro a D f inp hv h
    simp [downloadCmd, hv, h]
  · intro a D f inp h
    by_cases hv : validate_youtube_url a.url <;> simp [downloadCmd, hv, h]
  · intro a D h
    simp [editCmd, h]

/-- Witness for multiple_trim_flags_rejected: a concrete download and a
concrete edit invocation with two trim flags each. -/
theorem multiple_trim_flags_rejected_witness :
    downloadCmd ⟨"https://youtube.com/watch?v=abc", "best", none, some 1, some 2, none,
      false, false, false⟩ 0 "f.mp4" UserIn.eof =
      ⟨[], 1, some "Cannot specify multiple trim options", none⟩ ∧
    editCmd ⟨"clip.mp4", none, some 1, none, some "3-4", false, none, none, false⟩ 0 =
      ⟨[], 1, some "Cannot specify multiple trim options", "clip.mp4"⟩ :=
  ⟨multiple_trim_flags_rejected.1 _ 0 "f.mp4" UserIn.eof (by decide) (by decide),
   multiple_trim_flags_rejected.2.2 _ 0 (by decide)⟩

/-- C9: with trim-start 0 (or trim-end 0) as the only trim flag the
download command passes the mutual-exclusion validation, but the
post-download trim section — guarded by truthiness, under which 0.0 does
not count — is skipped entirely: no trim runs, no trimmed file is produced,
and the command still succeeds. -/
theorem zero_trim_flag_skips_trimming :
    ∀ (url : String) (probedDuration : Rat) (downloadedFile : String) (inp : UserIn),
      validate_youtube_url url = true →
      (trimFlagCount (some 0) none none = 1 ∧
        downloadCmd ⟨url, "best", none, some 0, none, none, false, false, false⟩
          probedDuration downloadedFile inp =
          ⟨[DOp.fetchInfo, DOp.dlMedia], 0, none, none⟩) ∧
      (trimFlagCount none (some 0) none = 1 ∧
        downloadCmd ⟨url, "best", none, none, some 0, none, false, false, false⟩
          probedDuration downloadedFile inp =
          ⟨[DOp.fetchInfo, DOp.dlMedia], 0, none, none⟩) := by
  intro url D f inp hv
  refine ⟨⟨rfl, ?_⟩, ⟨rfl, ?_⟩⟩ <;>
    simp [downloadCmd, hv, trimFlagCount, dlTrimGuard, pyTruthyFloatOpt, pyTruthyStrOpt]

/-- Witness for zero_trim_flag_skips_trimming at a concrete URL. -/
theorem zero_trim_flag_skips_trimming_witness :
    downloadCmd ⟨"https://youtube.com/watch?v=dQw4w9WgXcQ", "best", none, some 0, none,
      none, false, false, false⟩ 0 "video.mp4" UserIn.eof =
      ⟨[DOp.fetchInfo, DOp.dlMedia], 0, none, none⟩ :=
  (zero_trim_flag_skips_trimming "https://youtube.com/watch?v=dQw4w9WgXcQ" 0 "video.mp4"
    UserIn.eof (by decide)).1.2

/-- C10: confirm_action returns the supplied default on an empty response
and False on end-of-file or interrupt; hence after a successful trim in the
download command a closed or non-interactive standard input resolves the
keep-original prompt to False and the pre-trim download is always
removed. -/
theorem confirm_action_noninteractive_deletes_original :
    (∀ d : Bool, confirm_action (UserIn.line "") d = d) ∧
    (∀ d : Bool, confirm_action UserIn.eof d = false) ∧
    (∀ d : Bool, confirm_action UserIn.interrupt d = false) ∧
    (∀ (a : DlArgs) (probedDuration : Rat) (downloadedFile : String) (inp : UserIn)
        (c : TrimCall),
      validate_youtube_url a.url = true →
      trimFlagCount a.trim_start a.trim_end a.trim ≤ 1 →
      a.info_only = false → a.list_formats = false →
      dlTrimGuard a = true →
      trimCall a.trim_start a.trim_end a.trim probedDuration = .ok c →
      confirm_action inp false = false →
      downloadCmd a probedDuration downloadedFile inp =
        ⟨[DOp.fetchInfo, if a.audio_only then DOp.dlAudio else DOp.dlMedia,
          DOp.trimRun, DOp.rmOriginal], 0, none,
          some (generate_output_filename downloadedFile "_trimmed" none none)⟩) := by
  refine ⟨fun d => rfl, fun d => rfl, fun d => rfl, ?_⟩
  intro a D f inp c hv hcnt hinfo hlist hguard hok hconf
  have h2 : ¬ 1 < trimFlagCount a.trim_start a.trim_end a.trim := not_lt.mpr hcnt
  simp [downloadCmd, hv, h2, hinfo, hlist, hguard, hok, hconf]

/-- Witness for confirm_action_noninteractive_deletes_original: a concrete
trimmed download answered by end-of-file deletes the original. -/
theorem confirm_action_noninteractive_deletes_original_witness :
    downloadCmd ⟨"https://youtu.be/abc", "best", none, some 5, none, none,
      false, false, false⟩ 0 "video.mp4" UserIn.eof =
      ⟨[DOp.fetchInfo, DOp.dlMedia, DOp.trimRun, DOp.rmOriginal], 0, none,
        some "video_trimmed.mp4"⟩ := by
  have h := confirm_action_noninteractive_deletes_original.2.2.2
    ⟨"https://youtu.be/abc", "best", none, some 5, none, none, false, false, false⟩
    0 "video.mp4" UserIn.eof ⟨some 5, none, none⟩
    (by decide) (by decide) rfl rfl (by decide) (by decide) rfl
  simpa using h

/-- C2 counterexample: in edit with trim range 10-30 and resize 720p on
clip.mp4, the resize step reads and writes the very same path
clip_trimmed.mp4, so a sub-operation's output path is not always distinct
from its input path. -/
theorem edit_resize_after_trim_in_place :
    editCmd ⟨"clip.mp4", none, none, none, some "10-30", false, none, some "720p",
      false⟩ 0 =
      ⟨[⟨EOp.trim, "clip.mp4", "clip_trimmed.mp4"⟩,
        ⟨EOp.resize, "clip_trimmed.mp4", "clip_trimmed.mp4"⟩], 0, none,
        "clip_trimmed.mp4"⟩ ∧
    ((editCmd ⟨"clip.mp4", none, none, none, some "10-30", false, none, some "720p",
      false⟩ 0).steps.any (fun s => s.src == s.dst)) = true := by
  exact ⟨by decide, by decide⟩

/-- Helper: when the trim section of the edit command finishes without an
error it either did nothing or recorded exactly one trim step reading the
input file, the written path becoming both the output variable and
final_output. -/
theorem trimBlock_shape (a : EditArgs) (probedDuration : Rat) (st1 : EditSt)
    (h : trimBlock a probedDuration ⟨a.output, a.input_file, []⟩ = (st1, none)) :
    st1 = ⟨a.output, a.input_file, []⟩ ∨
      ∃ out, st1 = ⟨some out, out, [⟨EOp.trim, a.input_file, out⟩]⟩ := by
  unfold trimBlock at h
  by_cases hg : trimRequested a
  · rw [if_pos hg] at h
    cases hc : trimCall a.trim_start a.trim_end a.trim probedDuration with
    | error m =>
      rw [hc] at h
      simp at h
    | ok c =>
      rw [hc] at h
      simp at h
      right
      exact ⟨_, h.symm⟩
  · rw [if_neg hg] at h
    left
    cases h
    rfl

/-- Helper: the convert section either does nothing or records exactly one
convert step reading the current final_output, the written path becoming
both the output variable and final_output. -/
theorem convertBlock_shape (a : EditArgs) (st : EditSt) :
    convertBlock a st = st ∨
      ∃ out, convertBlock a st =
        ⟨some out, out, st.steps ++ [⟨EOp.convert, st.final, out⟩]⟩ := by
  unfold convertBlock
  by_cases hg : pyTruthyStrOpt a.convert_to
  · right
    rw [if_pos hg]
    exact ⟨_, rfl⟩
  · left
    rw [if_neg hg]

/-- Helper: when the resize section finishes without an error it either did
nothing or recorded exactly one resize step reading the current
final_output, the written path becoming both the output variable and
final_output. -/
theorem resizeBlock_shape (a : EditArgs) (st st3 : EditSt)
    (h : resizeBlock a st = (st3, none)) :
    st3 = st ∨
      ∃ out, st3 = ⟨some out, out, st.steps ++ [⟨EOp.resize, st.final, out⟩]⟩ := by
  unfold resizeBlock at h
  by_cases hg : pyTruthyStrOpt a.resize
  · rw [if_pos hg] at h
    cases hr : resolveResize (a.resize.getD "") with
    | scale s =>
      rw [hr] at h
      simp at h
      right
      exact ⟨_, h.symm⟩
    | dims w hh =>
      rw [hr] at h
      by_cases hz : w = 0 ∧ hh = 0
      · simp [hz] at h
      · simp [hz] at h
        right
        exact ⟨_, h.symm⟩
    | invalid m =>
      rw [hr] at h
      simp at h
  · rw [if_neg hg] at h
    left
    cases h
    rfl

/-- Helper: the audio section either does nothing or appends exactly one
audio step reading the current final_output and writing the _audio mp3
sibling of the input file, leaving output and final_output unchanged. -/
theorem audioBlock_shape (a : EditArgs) (st : EditSt) :
    audioBlock a st = st ∨
      audioBlock a st = ⟨st.output, st.final, st.steps ++ [⟨EOp.audio, st.final,
        generate_output_filename a.input_file "_audio" (some "mp3") none⟩]⟩ := by
  unfold audioBlock
  by_cases hg : a.extract_audio
  · right
    rw [if_pos hg]
  · left
    rw [if_neg hg]

/-- C2 (amended): in a successful edit invocation the sub-operations run in
the fixed order trim, convert, resize, extract-audio — the recorded steps
are an order-preserving subsequence of that list — and each step reads
exactly the path the previous step wrote (the first reads the input file);
output paths are, however, not guaranteed distinct from input paths: a
later sub-operation can read and write the same path when the output
variable is already set. -/
theorem edit_steps_ordered_and_chained :
    ∀ (a : EditArgs) (probedDuration : Rat),
      a.info = false → (editCmd a probedDuration).errMsg = none →
      isSubseq ((editCmd a probedDuration).steps.map EStep.op)
        [EOp.trim, EOp.convert, EOp.resize, EOp.audio] = true ∧
      chainedFrom a.input_file (editCmd a probedDuration).steps = true := by
  intro a D hinfo hok
  by_cases hv : 1 < trimFlagCount a.trim_start a.trim_end a.trim
  · simp [editCmd, hv] at hok
  · cases h1 : trimBlock a D ⟨a.output, a.input_file, []⟩ with
    | mk st1 e1 =>
      cases e1 with
      | some m => simp [editCmd, hv, hinfo, h1] at hok
      | none =>
        cases h3 : resizeBlock a (convertBlock a st1) with
        | mk st3 e3 =>
          cases e3 with
          | some m => simp [editCmd, hv, hinfo, h1, h3] at hok
          | none =>
            have hrun : editCmd a D =
                ⟨(audioBlock a st3).steps, 0, none, (audioBlock a st3).final⟩ := by
              simp [editCmd, hv, hinfo, h1, h3]
            rw [hrun]
            rcases audioBlock_shape a st3 with h4s | h4s <;> rw [h4s] <;>
              rcases resizeBlock_shape a (convertBlock a st1) st3 h3 with h3s | ⟨o3, h3s⟩ <;>
              subst h3s <;>
              rcases convertBlock_shape a st1 with h2s | ⟨o2, h2s⟩ <;> rw [h2s] <;>
              rcases trimBlock_shape a D st1 h1 with h1s | ⟨o1, h1s⟩ <;> subst h1s <;>
              simp [isSubseq, chainedFrom]

/-- Witness for edit_steps_ordered_and_chained on a concrete invocation
that trims, converts to webm and extracts audio. -/
theorem edit_steps_ordered_and_chained_witness :
    isSubseq ((editCmd ⟨"clip.mp4", none, some 10, none, none, true, some "webm", none,
        false⟩ 0).steps.map EStep.op) [EOp.trim, EOp.convert, EOp.resize, EOp.audio] =
      true ∧
    chainedFrom "clip.mp4" (editCmd ⟨"clip.mp4", none, some 10, none, none, true,
        some "webm", none, false⟩ 0).steps = true :=
  edit_steps_ordered_and_chained ⟨"clip.mp4", none, some 10, none, none, true,
    some "webm", none, false⟩ 0 rfl (by decide)

end YtDl
